import Mathlib

/-!
Verification of `fingerproxy.go` (package `fingerproxy`): a shallow embedding of
the package's pure logic and of the effectful startup sequence `Run`, modelled
as an explicit event trace over an external `World` supplying the standard
library functions (`url.Parse`, `tls.LoadX509KeyPair`) and the process
environment (`os.LookupEnv`, a map from variable names to optional values).
-/

namespace Fingerproxy

/-- Build metadata variables of the source (`BuildCommit`). -/
def BuildCommit : String := "GIT_COMMIT_PLACEHOLDER"

/-- Build metadata variables of the source (`BuildTag`). -/
def BuildTag : String := "GIT_TAG_PLACEHOLDER"

/-- HTTP status constant `http.StatusGatewayTimeout`. -/
def StatusGatewayTimeout : Nat := 504

/-- HTTP status constant `http.StatusBadGateway`. -/
def StatusBadGateway : Nat := 502

/-- Go error values as observed by `proxyErrorHandler`: the two `context`
sentinel errors it tests for, any other error (carrying its message), and a
wrapping error (as produced by `fmt.Errorf` with `%w`), which `errors.Is`
unwraps. -/
inductive GoErr where
  | deadlineExceeded : GoErr
  | canceled : GoErr
  | other : String → GoErr
  | wrap : String → GoErr → GoErr
  deriving DecidableEq

/-- Rendering of an error as `%v` prints it, used only in the log line. -/
def errText : GoErr → String
  | GoErr.deadlineExceeded => "context deadline exceeded"
  | GoErr.canceled => "context canceled"
  | GoErr.other s => s
  | GoErr.wrap m inner => m ++ ": " ++ errText inner

/-- Go `errors.Is err target`: equality at each level of the unwrap chain. -/
def errorsIs : GoErr → GoErr → Bool
  | GoErr.wrap m inner, target =>
      decide (GoErr.wrap m inner = target) || errorsIs inner target
  | e, target => decide (e = target)

/-- The request data `proxyErrorHandler` reads: `req.URL.String()` and
`req.RemoteAddr`. -/
structure Request where
  url : String
  remoteAddr : String

/-- What the handler sends through the `http.ResponseWriter`: the status code
passed to `WriteHeader` and the list of byte strings passed to `Write` calls
(the response body). -/
structure HTTPResponse where
  status : Nat
  body : List String
  deriving DecidableEq

/-- Source function `proxyErrorHandler` (fingerproxy.go lines 95 to 104): logs
the target URL, remote address and error, then writes status 504 when the error
is (per `errors.Is`) `context.DeadlineExceeded` or `context.Canceled`, and 502
otherwise. It never calls `Write`, so the body stays empty. The first component
is the log line (stderr, not client visible); the second the client-visible
response. -/
def proxyErrorHandler (req : Request) (err : GoErr) : String × HTTPResponse :=
  ("proxy " ++ req.url ++ " error (from " ++ req.remoteAddr ++ "): " ++ errText err,
   if errorsIs err GoErr.deadlineExceeded || errorsIs err GoErr.canceled then
     { status := StatusGatewayTimeout, body := [] }
   else
     { status := StatusBadGateway, body := [] })

/-- TLS protocol version constant `tls.VersionTLS12`. -/
def VersionTLS12 : Nat := 0x0303

/-- TLS protocol version constant `tls.VersionTLS13`. -/
def VersionTLS13 : Nat := 0x0304

/-- An opaque loaded certificate/key pair (`tls.Certificate`). -/
structure Certificate where
  id : Nat
  deriving DecidableEq

/-- The fields of `tls.Config` that `DefaultTLSConfig` sets. -/
structure TLSConfig where
  nextProtos : List String
  minVersion : Nat
  maxVersion : Nat
  certificates : List Certificate
  deriving DecidableEq

/-- Source function `DefaultTLSConfig` (fingerproxy.go lines 72 to 86),
parametrised by the external `tls.LoadX509KeyPair`: builds a config with
`NextProtos = ["h2", "http/1.1"]`, min version TLS 1.2, max version TLS 1.3;
returns the load error unchanged when loading the pair fails, and otherwise the
config with the single loaded certificate installed. -/
def DefaultTLSConfig (loadX509KeyPair : String → String → Except String Certificate)
    (certFile : String) (keyFile : String) : Except String TLSConfig :=
  match loadX509KeyPair certFile keyFile with
  | Except.error e => Except.error e
  | Except.ok tlsCert =>
      Except.ok { nextProtos := ["h2", "http/1.1"], minVersion := VersionTLS12,
                  maxVersion := VersionTLS13, certificates := [tlsCert] }

/-- Names for the three fingerprint functions passed to
`fingerprint.NewFingerprintHeaderInjector` in `DefaultHeaderInjectors`. -/
inductive FingerprintFunc where
  | ja3 : FingerprintFunc
  | ja4 : FingerprintFunc
  | http2 : FingerprintFunc
  deriving DecidableEq

/-- A header injector as built by `fingerprint.NewFingerprintHeaderInjector`:
a header name paired with the fingerprint function. -/
structure HeaderInjector where
  headerName : String
  fingerprint : FingerprintFunc
  deriving DecidableEq

/-- Constructor `fingerprint.NewFingerprintHeaderInjector`. -/
def NewFingerprintHeaderInjector (name : String) (f : FingerprintFunc) : HeaderInjector :=
  { headerName := name, fingerprint := f }

/-- Source function `DefaultHeaderInjectors` (fingerproxy.go lines 64 to 70). -/
def DefaultHeaderInjectors : List HeaderInjector :=
  [NewFingerprintHeaderInjector "X-JA3-Fingerprint" FingerprintFunc.ja3,
   NewFingerprintHeaderInjector "X-JA4-Fingerprint" FingerprintFunc.ja4,
   NewFingerprintHeaderInjector "X-HTTP2-Fingerprint" FingerprintFunc.http2]

/-- Package variable `GetHeaderInjectors`, whose initial (default) value is
`DefaultHeaderInjectors` (fingerproxy.go line 54). -/
def GetHeaderInjectors : List HeaderInjector := DefaultHeaderInjectors

/-- Source function `envWithDefault` (fingerproxy.go lines 221 to 226), with
the process environment passed explicitly as `os.LookupEnv`. -/
def envWithDefault (env : String → Option String) (key : String)
    (defaultVal : String) : String :=
  match env key with
  | some envVal => envVal
  | none => defaultVal

/-- Lowercasing of one character: an ASCII upper-case letter is shifted to its
lower-case form, anything else kept (the fragment of `strings.ToLower`
relevant to the comparisons with "true"/"false"). -/
def lowerChar (c : Char) : Char :=
  if 65 ≤ c.toNat ∧ c.toNat ≤ 90 then Char.ofNat (c.toNat + 32) else c

/-- Go `strings.ToLower`, character by character. -/
def goToLower (s : String) : String := String.mk (s.data.map lowerChar)

/-- Source function `envWithDefaultBool` (fingerproxy.go lines 228 to 237):
when the variable is set, `strings.ToLower` of its value is compared with
"true" and "false"; any other value, and an unset variable, yield the
default. -/
def envWithDefaultBool (env : String → Option String) (key : String)
    (defaultVal : Bool) : Bool :=
  match env key with
  | some envVal =>
      if goToLower envVal = "true" then true
      else if goToLower envVal = "false" then false
      else defaultVal
  | none => defaultVal

/-- The command line of the process: for each flag defined in `Run`, `some v`
when the flag is given on the command line with value `v`, `none` when it is
absent (so the flag keeps its default). -/
structure Flags where
  listenAddr : Option String
  forwardURL : Option String
  certFilename : Option String
  keyFilename : Option String
  metricsListenAddr : Option String
  enableKubernetesProbe : Option Bool
  verbose : Option Bool
  version : Option Bool

/-- The effective configuration after `flag.Parse` in `Run`. -/
structure Config where
  listenAddr : String
  forwardURL : String
  certFilename : String
  keyFilename : String
  metricsListenAddr : String
  enableKubernetesProbe : Bool
  verbose : Bool
  version : Bool

/-- The flag definitions of `Run` (fingerproxy.go lines 139 to 182): each
flag's default is the environment lookup (`envWithDefault` or
`envWithDefaultBool` with the documented fallback), and `flag.Parse` replaces
the default with the command-line value exactly when the flag is given. The
version flag's default is the literal `false`, with no environment lookup. -/
def resolveConfig (fl : Flags) (env : String → Option String) : Config :=
  { listenAddr := fl.listenAddr.getD (envWithDefault env "LISTEN_ADDR" ":443"),
    forwardURL := fl.forwardURL.getD (envWithDefault env "FORWARD_URL" "http://localhost:80"),
    certFilename := fl.certFilename.getD (envWithDefault env "CERT_FILENAME" "tls.crt"),
    keyFilename := fl.keyFilename.getD (envWithDefault env "CERTKEY_FILENAME" "tls.key"),
    metricsListenAddr :=
      fl.metricsListenAddr.getD (envWithDefault env "METRICS_LISTEN_ADDR" ":9035"),
    enableKubernetesProbe :=
      fl.enableKubernetesProbe.getD (envWithDefaultBool env "ENABLE_KUBERNETES_PROBE" true),
    verbose := fl.verbose.getD (envWithDefaultBool env "VERBOSE" false),
    version := fl.version.getD false }

/-- A parsed URL as returned by `url.Parse` (opaque to this code). -/
structure URL where
  raw : String
  deriving DecidableEq

/-- External functions `Run` calls whose outcome is not determined by the
source: URL parsing and certificate loading. -/
structure World where
  parseURL : String → Except String URL
  loadX509KeyPair : String → String → Except String Certificate

/-- The probe predicate value assignable to the handler; `Run` only ever
assigns `reverseproxy.IsKubernetesProbeRequest`. -/
inductive ProbePredicate where
  | kubernetesProbe : ProbePredicate
  deriving DecidableEq

/-- The reverse proxy HTTP handler as `Run` configures it: the backend URL and
the optional probe predicate (`nil` in Go when never assigned). -/
structure HTTPHandler where
  forwardTo : URL
  isProbeRequest : Option ProbePredicate
  deriving DecidableEq

/-- Observable steps of `Run`, in program order. -/
inductive Event where
  | printVersion : String → String → Event
  | exitZero : Event
  | fatalExit : String → Event
  | initFingerprint : Bool → Event
  | setHandler : HTTPHandler → Event
  | newProxyServer : Bool → Event
  | startMetrics : String → Event
  | startDebugServer : Event
  | listenAndServe : String → Event
  | logListenerError : Event
  deriving DecidableEq

/-- Body of `Run` after `flag.Parse` (fingerproxy.go lines 184 to 219), as the
trace of its observable steps. `log.Fatal` is `fatalExit` (it logs and calls
`os.Exit(1)`); the version branch prints and calls `os.Exit(0)`. When the
forward URL parses and the TLS material loads, `Run` initialises the
fingerprint package, builds the handler (assigning the Kubernetes probe
predicate exactly when the probe flag resolved true), builds the proxy server,
starts the metrics listener and the debug server, and blocks in
`ListenAndServe` on the listen address, logging the listener error at end. -/
def runWithConfig (cfg : Config) (w : World) : List Event :=
  if cfg.version then
    [Event.printVersion BuildTag BuildCommit, Event.exitZero]
  else
    match w.parseURL cfg.forwardURL with
    | Except.error e => [Event.fatalExit e]
    | Except.ok forwardTo =>
        match DefaultTLSConfig w.loadX509KeyPair cfg.certFilename cfg.keyFilename with
        | Except.error e => [Event.fatalExit e]
        | Except.ok _tlsConfig =>
            let handler : HTTPHandler :=
              { forwardTo := forwardTo,
                isProbeRequest :=
                  if cfg.enableKubernetesProbe then some ProbePredicate.kubernetesProbe
                  else none }
            [Event.initFingerprint cfg.verbose,
             Event.setHandler handler,
             Event.newProxyServer cfg.verbose,
             Event.startMetrics cfg.metricsListenAddr,
             Event.startDebugServer,
             Event.listenAndServe cfg.listenAddr,
             Event.logListenerError]

/-- Source function `Run` (fingerproxy.go lines 138 to 219): flag resolution
followed by the post-parse body. -/
def Run (fl : Flags) (env : String → Option String) (w : World) : List Event :=
  runWithConfig (resolveConfig fl env) w

/-- The process exit status encoded in a trace: 0 at `exitZero`, 1 at
`fatalExit`, none when the trace ends without exiting. -/
def exitStatus : List Event → Option Nat
  | [] => none
  | Event.exitZero :: _ => some 0
  | Event.fatalExit _ :: _ => some 1
  | _ :: rest => exitStatus rest

/-- A command line giving no flag. -/
def noFlags : Flags :=
  { listenAddr := none, forwardURL := none, certFilename := none, keyFilename := none,
    metricsListenAddr := none, enableKubernetesProbe := none, verbose := none,
    version := none }

/-- A command line giving only the version flag. -/
def versionFlags : Flags := { noFlags with version := some true }

/-- An empty process environment. -/
def emptyEnv : String → Option String := fun _ => none

/-- An environment setting both boolean variables to the string "1". -/
def onesEnv : String → Option String := fun k =>
  if k = "ENABLE_KUBERNETES_PROBE" then some "1"
  else if k = "VERBOSE" then some "1"
  else none

/-- A certificate loader that always succeeds. -/
def okLoad : String → String → Except String Certificate :=
  fun _ _ => Except.ok { id := 0 }

/-- A certificate loader that always fails. -/
def failLoad : String → String → Except String Certificate :=
  fun _ _ => Except.error "no such file or directory"

/-- A world where parsing and loading succeed. -/
def okWorld : World :=
  { parseURL := fun s => Except.ok { raw := s }, loadX509KeyPair := okLoad }

/-- A world where URL parsing fails. -/
def failWorld : World :=
  { parseURL := fun _ => Except.error "parse error", loadX509KeyPair := failLoad }

/-- The configuration `DefaultTLSConfig` returns under `okLoad`. -/
def okConf : TLSConfig :=
  { nextProtos := ["h2", "http/1.1"], minVersion := VersionTLS12,
    maxVersion := VersionTLS13, certificates := [{ id := 0 }] }

/-- C1: the proxy error handler responds 504 (gateway timeout) exactly when the
error is, or wraps per `errors.Is`, the context deadline-exceeded or context
cancellation sentinel, and 502 (bad gateway) exactly otherwise. -/
theorem proxyErrorHandler_status_classification (req : Request) (err : GoErr) :
    ((proxyErrorHandler req err).2.status = StatusGatewayTimeout ↔
      (errorsIs err GoErr.deadlineExceeded = true ∨ errorsIs err GoErr.canceled = true)) ∧
    ((proxyErrorHandler req err).2.status = StatusBadGateway ↔
      ¬(errorsIs err GoErr.deadlineExceeded = true ∨ errorsIs err GoErr.canceled = true)) ∧
    StatusGatewayTimeout = 504 ∧ StatusBadGateway = 502 := by
  by_cases h : errorsIs err GoErr.deadlineExceeded = true ∨ errorsIs err GoErr.canceled = true
  · have hb : (errorsIs err GoErr.deadlineExceeded || errorsIs err GoErr.canceled) = true :=
      (Bool.or_eq_true _ _).mpr h
    simp [proxyErrorHandler, hb, StatusGatewayTimeout, StatusBadGateway, h]
  · obtain ⟨h1, h2⟩ := not_or.mp h
    have hb : (errorsIs err GoErr.deadlineExceeded || errorsIs err GoErr.canceled) = false := by
      rw [Bool.not_eq_true] at h1 h2
      simp [h1, h2]
    simp [proxyErrorHandler, hb, StatusGatewayTimeout, StatusBadGateway, h]

/-- C2: the proxy error handler writes only a status code; the client-visible
response body is empty for every error, hence identical for any two errors
(of the same classification class or not), and never holds the error text. -/
theorem proxyErrorHandler_body_no_error_text (r1 r2 : Request) (e1 e2 : GoErr) :
    (proxyErrorHandler r1 e1).2.body = [] ∧
    (proxyErrorHandler r1 e1).2.body = (proxyErrorHandler r2 e2).2.body := by
  unfold proxyErrorHandler
  constructor <;> dsimp only <;> split <;> try split
  all_goals rfl

/-- C4: whenever `DefaultTLSConfig` succeeds, the returned configuration
negotiates exactly the protocols h2 then http/1.1 (so HTTP/2 and HTTP/1.1 are
both offered), with minimum version TLS 1.2 and maximum version TLS 1.3. -/
theorem DefaultTLSConfig_protocol_bounds
    (load : String → String → Except String Certificate) (certFile keyFile : String)
    (conf : TLSConfig) (h : DefaultTLSConfig load certFile keyFile = Except.ok conf) :
    conf.nextProtos = ["h2", "http/1.1"] ∧
    "h2" ∈ conf.nextProtos ∧ "http/1.1" ∈ conf.nextProtos ∧
    conf.minVersion = VersionTLS12 ∧ conf.maxVersion = VersionTLS13 ∧
    VersionTLS12 = 0x0303 ∧ VersionTLS13 = 0x0304 := by
  unfold DefaultTLSConfig at h
  cases hl : load certFile keyFile <;> rw [hl] at h
  · exact absurd h (by simp)
  · cases h
    refine ⟨rfl, ?_, ?_, rfl, rfl, rfl, rfl⟩ <;> simp

/-- C4 witness: under a loader that succeeds, `DefaultTLSConfig` on the default
file names yields `okConf`, whose protocol list is h2 then http/1.1. -/
theorem DefaultTLSConfig_protocol_bounds_witness :
    okConf.nextProtos = ["h2", "http/1.1"] :=
  (DefaultTLSConfig_protocol_bounds okLoad "tls.crt" "tls.key" okConf rfl).1

/-- C5: `DefaultTLSConfig` returns an error exactly when loading the
certificate/key pair fails (and it returns that load error unchanged); on
success the configuration holds exactly one certificate chain. -/
theorem DefaultTLSConfig_error_iff_load_error
    (load : String → String → Except String Certificate) (certFile keyFile : String) :
    ((∃ e, DefaultTLSConfig load certFile keyFile = Except.error e) ↔
      (∃ e, load certFile keyFile = Except.error e)) ∧
    (∀ e, load certFile keyFile = Except.error e →
      DefaultTLSConfig load certFile keyFile = Except.error e) ∧
    (∀ conf, DefaultTLSConfig load certFile keyFile = Except.ok conf →
      conf.certificates.length = 1) := by
  unfold DefaultTLSConfig
  cases hl : load certFile keyFile with
  | error e => simp
  | ok c =>
      refine ⟨by simp, by simp, ?_⟩
      intro conf hconf
      cases hconf
      rfl

/-- C9: the default injector list has exactly three injectors, bound in order
to the JA3, JA4 and HTTP/2 fingerprint functions under the header names
X-JA3-Fingerprint, X-JA4-Fingerprint and X-HTTP2-Fingerprint, which are
pairwise distinct and non-empty; it is the default value of
`GetHeaderInjectors`. -/
theorem DefaultHeaderInjectors_fixed :
    DefaultHeaderInjectors.length = 3 ∧
    DefaultHeaderInjectors.map HeaderInjector.headerName =
      ["X-JA3-Fingerprint", "X-JA4-Fingerprint", "X-HTTP2-Fingerprint"] ∧
    DefaultHeaderInjectors.map HeaderInjector.fingerprint =
      [FingerprintFunc.ja3, FingerprintFunc.ja4, FingerprintFunc.http2] ∧
    (DefaultHeaderInjectors.map HeaderInjector.headerName).Nodup ∧
    "" ∉ DefaultHeaderInjectors.map HeaderInjector.headerName ∧
    GetHeaderInjectors = DefaultHeaderInjectors := by
  refine ⟨rfl, rfl, rfl, ?_, ?_, rfl⟩ <;> decide

/-- C10: `envWithDefaultBool` returns true when the variable is set to "true"
up to case, false when it is set to "false" up to case, and the supplied
default in every other case (unset, or any other value); with default false the
result is true exactly when the variable is set to "true" up to case, and with
default true the result is false exactly when it is set to "false" up to
case. -/
theorem envWithDefaultBool_cases (env : String → Option String) (key : String) (d : Bool) :
    (∀ v, env key = some v → goToLower v = "true" → envWithDefaultBool env key d = true) ∧
    (∀ v, env key = some v → goToLower v = "false" → envWithDefaultBool env key d = false) ∧
    (env key = none → envWithDefaultBool env key d = d) ∧
    (∀ v, env key = some v → goToLower v ≠ "true" → goToLower v ≠ "false" →
      envWithDefaultBool env key d = d) ∧
    (envWithDefaultBool env key false = true ↔
      ∃ v, env key = some v ∧ goToLower v = "true") ∧
    (envWithDefaultBool env key true = false ↔
      ∃ v, env key = some v ∧ goToLower v = "false") := by
  cases henv : env key with
  | none => simp [envWithDefaultBool, henv]
  | some v =>
      by_cases ht : goToLower v = "true" <;> by_cases hf : goToLower v = "false" <;>
        simp_all [envWithDefaultBool, henv]

/-- C3: in a non-version run, if parsing the forward URL fails or loading the
TLS certificate/key material fails, the trace of `Run` is a single fatal exit
(the error is logged, the process exits with status 1), and in particular no
listener is ever bound: neither `ListenAndServe` nor the metrics listener is
reached. -/
theorem Run_fatal_before_listen (fl : Flags) (env : String → Option String) (w : World)
    (hver : (resolveConfig fl env).version = false)
    (hfail :
      (∃ e, w.parseURL (resolveConfig fl env).forwardURL = Except.error e) ∨
      (∃ e, w.loadX509KeyPair (resolveConfig fl env).certFilename
              (resolveConfig fl env).keyFilename = Except.error e)) :
    (∃ msg, Run fl env w = [Event.fatalExit msg]) ∧
    exitStatus (Run fl env w) = some 1 ∧
    (∀ a, Event.listenAndServe a ∉ Run fl env w) ∧
    (∀ a, Event.startMetrics a ∉ Run fl env w) := by
  have hrun : ∃ msg, Run fl env w = [Event.fatalExit msg] := by
    unfold Run runWithConfig
    rw [hver]
    simp only [Bool.false_eq_true, if_false]
    cases hp : w.parseURL (resolveConfig fl env).forwardURL with
    | error e => exact ⟨e, rfl⟩
    | ok u =>
        rcases hfail with ⟨e, he⟩ | ⟨e, he⟩
        · rw [hp] at he
          exact absurd he (by simp)
        · unfold DefaultTLSConfig
          rw [he]
          exact ⟨e, rfl⟩
  obtain ⟨msg, hmsg⟩ := hrun
  rw [hmsg]
  exact ⟨⟨msg, rfl⟩, rfl, by simp, by simp⟩

/-- C3 witness: with no flags, an empty environment and a world whose URL
parser fails, `Run` exits with status 1. -/
theorem Run_fatal_before_listen_witness :
    exitStatus (Run noFlags emptyEnv failWorld) = some 1 :=
  (Run_fatal_before_listen noFlags emptyEnv failWorld rfl
    (Or.inl ⟨"parse error", rfl⟩)).2.1

/-- C6: in a non-version run that reaches handler construction, the handler's
probe predicate is the Kubernetes probe predicate exactly when the
enable-kubernetes-probe setting resolved true, and remains unset exactly when
it resolved false; and the setting's default (no flag, no environment
variable) is true. -/
theorem Run_probe_predicate_iff (fl : Flags) (env : String → Option String) (w : World)
    (u : URL) (c : Certificate)
    (hver : (resolveConfig fl env).version = false)
    (hu : w.parseURL (resolveConfig fl env).forwardURL = Except.ok u)
    (hc : w.loadX509KeyPair (resolveConfig fl env).certFilename
            (resolveConfig fl env).keyFilename = Except.ok c) :
    (∃ h, Event.setHandler h ∈ Run fl env w ∧
      (h.isProbeRequest = some ProbePredicate.kubernetesProbe ↔
        (resolveConfig fl env).enableKubernetesProbe = true) ∧
      (h.isProbeRequest = none ↔ (resolveConfig fl env).enableKubernetesProbe = false)) ∧
    (resolveConfig noFlags emptyEnv).enableKubernetesProbe = true := by
  refine ⟨?_, rfl⟩
  refine ⟨{ forwardTo := u,
            isProbeRequest :=
              if (resolveConfig fl env).enableKubernetesProbe then
                some ProbePredicate.kubernetesProbe
              else none }, ?_, ?_, ?_⟩
  · unfold Run runWithConfig
    rw [hver]
    simp only [Bool.false_eq_true, if_false]
    rw [hu]
    unfold DefaultTLSConfig
    rw [hc]
    simp
  · cases hk : (resolveConfig fl env).enableKubernetesProbe <;> simp [hk]
  · cases hk : (resolveConfig fl env).enableKubernetesProbe <;> simp [hk]

/-- C6 witness: with no flags, an empty environment and a succeeding world,
the probe setting resolves to its default true. -/
theorem Run_probe_predicate_iff_witness :
    (resolveConfig noFlags emptyEnv).enableKubernetesProbe = true :=
  (Run_probe_predicate_iff noFlags emptyEnv okWorld
    { raw := "http://localhost:80" } { id := 0 } rfl rfl rfl).2

/-- C7 counterexample: with no flags given and both boolean environment
variables set to the same string "1", the probe toggle resolves to true while
verbosity resolves to false — each to its own default, not to (any reading of)
the environment value — so the effective value is not the environment
variable's value whenever the variable is set. -/
theorem resolveConfig_env_set_counterexample :
    (resolveConfig noFlags onesEnv).enableKubernetesProbe = true ∧
    (resolveConfig noFlags onesEnv).verbose = false ∧
    (resolveConfig noFlags onesEnv).enableKubernetesProbe ≠
      (resolveConfig noFlags onesEnv).verbose := by
  refine ⟨rfl, rfl, ?_⟩
  show (true : Bool) ≠ false
  decide

/-- C7 (amended): for every setting the flag value wins when the flag is
given; otherwise the string settings take the environment variable's value
when it is set and the documented default when it is unset, while the boolean
settings take the environment value only when it is "true" or "false" up to
case, and their documented default in every other case (unset included). -/
theorem resolveConfig_precedence (fl : Flags) (env : String → Option String) :
    (∀ v, fl.listenAddr = some v → (resolveConfig fl env).listenAddr = v) ∧
    (∀ v, fl.forwardURL = some v → (resolveConfig fl env).forwardURL = v) ∧
    (∀ v, fl.certFilename = some v → (resolveConfig fl env).certFilename = v) ∧
    (∀ v, fl.keyFilename = some v → (resolveConfig fl env).keyFilename = v) ∧
    (∀ v, fl.metricsListenAddr = some v → (resolveConfig fl env).metricsListenAddr = v) ∧
    (∀ b, fl.enableKubernetesProbe = some b →
      (resolveConfig fl env).enableKubernetesProbe = b) ∧
    (∀ b, fl.verbose = some b → (resolveConfig fl env).verbose = b) ∧
    (fl.listenAddr = none → ∀ v, env "LISTEN_ADDR" = some v →
      (resolveConfig fl env).listenAddr = v) ∧
    (fl.forwardURL = none → ∀ v, env "FORWARD_URL" = some v →
      (resolveConfig fl env).forwardURL = v) ∧
    (fl.certFilename = none → ∀ v, env "CERT_FILENAME" = some v →
      (resolveConfig fl env).certFilename = v) ∧
    (fl.keyFilename = none → ∀ v, env "CERTKEY_FILENAME" = some v →
      (resolveConfig fl env).keyFilename = v) ∧
    (fl.metricsListenAddr = none → ∀ v, env "METRICS_LISTEN_ADDR" = some v →
      (resolveConfig fl env).metricsListenAddr = v) ∧
    (fl.listenAddr = none → env "LISTEN_ADDR" = none →
      (resolveConfig fl env).listenAddr = ":443") ∧
    (fl.forwardURL = none → env "FORWARD_URL" = none →
      (resolveConfig fl env).forwardURL = "http://localhost:80") ∧
    (fl.certFilename = none → env "CERT_FILENAME" = none →
      (resolveConfig fl env).certFilename = "tls.crt") ∧
    (fl.keyFilename = none → env "CERTKEY_FILENAME" = none →
      (resolveConfig fl env).keyFilename = "tls.key") ∧
    (fl.metricsListenAddr = none → env "METRICS_LISTEN_ADDR" = none →
      (resolveConfig fl env).metricsListenAddr = ":9035") ∧
    (fl.enableKubernetesProbe = none → ∀ v, env "ENABLE_KUBERNETES_PROBE" = some v →
      (resolveConfig fl env).enableKubernetesProbe =
        (if goToLower v = "true" then true
         else if goToLower v = "false" then false else true)) ∧
    (fl.enableKubernetesProbe = none → env "ENABLE_KUBERNETES_PROBE" = none →
      (resolveConfig fl env).enableKubernetesProbe = true) ∧
    (fl.verbose = none → ∀ v, env "VERBOSE" = some v →
      (resolveConfig fl env).verbose =
        (if goToLower v = "true" then true
         else if goToLower v = "false" then false else false)) ∧
    (fl.verbose = none → env "VERBOSE" = none → (resolveConfig fl env).verbose = false) := by
  refine ⟨?_, ?_, ?_, ?_, ?_, ?_, ?_, ?_, ?_, ?_, ?_, ?_, ?_, ?_, ?_, ?_, ?_, ?_, ?_, ?_, ?_⟩ <;>
    intros <;> simp_all [resolveConfig, envWithDefault, envWithDefaultBool]

/-- C8: when the version flag is given, `Run` prints the build tag and commit
and exits with status 0; its trace holds no other step for any world, so no
URL parsing, TLS loading, fingerprint initialisation, handler or server
construction, metrics start, or listener bind takes place. -/
theorem Run_version_flag (fl : Flags) (env : String → Option String) (w : World)
    (hv : fl.version = some true) :
    Run fl env w = [Event.printVersion BuildTag BuildCommit, Event.exitZero] ∧
    exitStatus (Run fl env w) = some 0 ∧
    (∀ a, Event.listenAndServe a ∉ Run fl env w) ∧
    (∀ a, Event.startMetrics a ∉ Run fl env w) ∧
    (∀ b, Event.initFingerprint b ∉ Run fl env w) ∧
    (∀ h, Event.setHandler h ∉ Run fl env w) ∧
    (∀ b, Event.newProxyServer b ∉ Run fl env w) ∧
    (∀ m, Event.fatalExit m ∉ Run fl env w) := by
  have hcfg : (resolveConfig fl env).version = true := by
    simp [resolveConfig, hv]
  have hrun : Run fl env w = [Event.printVersion BuildTag BuildCommit, Event.exitZero] := by
    unfold Run runWithConfig
    rw [hcfg]
    simp
  rw [hrun]
  exact ⟨rfl, rfl, by simp, by simp, by simp, by simp, by simp, by simp⟩

/-- C8 witness: with only the version flag given, against a world where both
parsing and loading would fail, `Run` still only prints the version and exits
with status 0. -/
theorem Run_version_flag_witness :
    Run versionFlags emptyEnv failWorld =
      [Event.printVersion BuildTag BuildCommit, Event.exitZero] :=
  (Run_version_flag versionFlags emptyEnv failWorld rfl).1

end Fingerproxy
